import Mathlib

/-!
Verification of the real-estate reservation core.

The development embeds the PostgreSQL reservation engine of
`supabase/migrations` — the plpgsql functions `create_request`,
`cancel_request` and `respond_to_request` together with the schema of the
`properties`, `requests` and `property_history` tables and the row-level
security policies — as pure Lean functions over an explicit store, and the
error mapping of the mobile client (`src/api/requests.ts`) as a function on
error codes.  Theorems at the end settle the specification claims.
-/

namespace RealEstate

/-- Enum `property_status` from the initial schema migration. -/
inductive PropertyStatus
  | available
  | requested
  | sold
  | withdrawn
deriving DecidableEq, Repr

/-- Enum `request_status` from the initial schema migration. -/
inductive RequestStatus
  | pending
  | accepted
  | declined
  | cancelled
deriving DecidableEq, Repr

/-- Identities are modelled as naturals (uuids in the schema). -/
abbrev UserId := Nat
abbrev PropertyId := Nat
abbrev RequestId := Nat

/-- A row of the `properties` table (only the columns the reservation core
reads or writes: id, seller_id, status). -/
structure Property where
  id : PropertyId
  seller_id : UserId
  status : PropertyStatus
deriving DecidableEq, Repr

/-- A row of the `requests` table. -/
structure Request where
  id : RequestId
  buyer_id : UserId
  property_id : PropertyId
  seller_id : UserId
  message : Option String
  status : RequestStatus
deriving DecidableEq, Repr

/-- A row of the `property_history` audit table.  The jsonb payloads written
by `create_request` hold the old and new status and the new request id. -/
structure HistoryRecord where
  property_id : PropertyId
  user_id : UserId
  action : String
  old_status : PropertyStatus
  new_status : PropertyStatus
  request_id : Option RequestId
deriving DecidableEq, Repr

/-- The durable store: the three tables the reservation core touches. -/
structure Store where
  properties : List Property
  requests : List Request
  history : List HistoryRecord
deriving DecidableEq, Repr

/-- `SELECT ... FROM properties WHERE id = pid` (first row with that id). -/
def findProperty (s : Store) (pid : PropertyId) : Option Property :=
  s.properties.find? (fun p => p.id == pid)

/-- `SELECT ... FROM requests WHERE id = rid`. -/
def findRequest (s : Store) (rid : RequestId) : Option Request :=
  s.requests.find? (fun r => r.id == rid)

/-- `UPDATE properties SET status = st WHERE id = pid`. -/
def updatePropertyStatus (s : Store) (pid : PropertyId) (st : PropertyStatus) : Store :=
  { s with properties :=
      s.properties.map (fun p => if p.id == pid then { p with status := st } else p) }

/-- `UPDATE requests SET status = st WHERE id = rid`. -/
def updateRequestStatus (s : Store) (rid : RequestId) (st : RequestStatus) : Store :=
  { s with requests :=
      s.requests.map (fun r => if r.id == rid then { r with status := st } else r) }

/-- `INSERT INTO requests ...` (row appended to the table). -/
def insertRequest (s : Store) (r : Request) : Store :=
  { s with requests := s.requests ++ [r] }

/-- `INSERT INTO properties ...` (listing creation, allowed to sellers by the
RLS insert policy; it never touches the `requests` table). -/
def insertProperty (s : Store) (p : Property) : Store :=
  { s with properties := s.properties ++ [p] }

/-- `INSERT INTO property_history ...`. -/
def appendHistory (s : Store) (h : HistoryRecord) : Store :=
  { s with history := s.history ++ [h] }

/-- A fresh request id, strictly larger than every id already in the table
(stands for `gen_random_uuid()`: the new row's id collides with no row). -/
def freshRequestId (s : Store) : RequestId :=
  s.requests.foldr (fun r m => max (r.id + 1) m) 0

/-- The predicate of the partial unique index
`idx_requests_buyer_pending_unique ON requests(buyer_id) WHERE
status = 'pending'`: the insert of a new pending row for `b` violates the
index exactly when such a row already exists. -/
def hasPendingRequest (s : Store) (b : UserId) : Bool :=
  s.requests.any (fun r => r.buyer_id == b && r.status == RequestStatus.pending)

/-- The typed errors the three plpgsql functions raise, by `ERRCODE`:
NotFound = P0002, PropertyNotAvailable = P0001 (carries the observed
status), SelfRequestForbidden = P0003, DuplicatePendingRequest = 23505,
Forbidden = P0004, InvalidStateTransition = P0001 (carries the observed
status), InvalidArgument = P0005. -/
inductive EngineError
  | NotFound
  | PropertyNotAvailable (current : PropertyStatus)
  | SelfRequestForbidden
  | DuplicatePendingRequest
  | Forbidden
  | InvalidStateTransition (current : RequestStatus)
  | InvalidArgument
deriving DecidableEq, Repr

/-- `create_request(p_buyer, p_property, p_message)` from the migration:
lock and read the property; NotFound if absent; PropertyNotAvailable if its
status is not `available`; SelfRequestForbidden if the buyer is the seller;
insert the pending request (the partial unique index rejects it when the
buyer already has a pending request → DuplicatePendingRequest); set the
property to `requested`; append the history record; return the new id.
A raised error aborts the transaction, so the error branches carry no
store. -/
def create_request (s : Store) (p_buyer : UserId) (p_property : PropertyId)
    (p_message : Option String) : Except EngineError (Store × RequestId) :=
  match findProperty s p_property with
  | none => .error .NotFound
  | some prop =>
    if prop.status ≠ PropertyStatus.available then
      .error (.PropertyNotAvailable prop.status)
    else if prop.seller_id = p_buyer then
      .error .SelfRequestForbidden
    else if hasPendingRequest s p_buyer then
      .error .DuplicatePendingRequest
    else
      let rid := freshRequestId s
      let s1 := insertRequest s
        { id := rid, buyer_id := p_buyer, property_id := p_property,
          seller_id := prop.seller_id, message := p_message,
          status := RequestStatus.pending }
      let s2 := updatePropertyStatus s1 p_property PropertyStatus.requested
      let s3 := appendHistory s2
        { property_id := p_property, user_id := p_buyer,
          action := "request_created",
          old_status := PropertyStatus.available,
          new_status := PropertyStatus.requested,
          request_id := some rid }
      .ok (s3, rid)

/-- `cancel_request(p_request_id, p_user_id)` from the migration: lock and
read the request; NotFound if absent; Forbidden unless the caller is the
buyer; InvalidStateTransition unless still pending; set the request to
`cancelled`; set the property to `available` (unconditionally — the
property row is never read); return true. -/
def cancel_request (s : Store) (p_request_id : RequestId) (p_user_id : UserId) :
    Except EngineError (Store × Bool) :=
  match findRequest s p_request_id with
  | none => .error .NotFound
  | some req =>
    if req.buyer_id ≠ p_user_id then
      .error .Forbidden
    else if req.status ≠ RequestStatus.pending then
      .error (.InvalidStateTransition req.status)
    else
      let s1 := updateRequestStatus s p_request_id RequestStatus.cancelled
      let s2 := updatePropertyStatus s1 req.property_id PropertyStatus.available
      .ok (s2, true)

/-- `respond_to_request(p_request_id, p_user_id, p_response)` from the
migration: the decision is validated first, before the request row is
locked or read; then NotFound / Forbidden (caller must be the seller) /
InvalidStateTransition as for cancel; set the request to the decision; set
the property to `sold` on accept, to `available` on decline; return true. -/
def respond_to_request (s : Store) (p_request_id : RequestId) (p_user_id : UserId)
    (p_response : RequestStatus) : Except EngineError (Store × Bool) :=
  if p_response ≠ RequestStatus.accepted ∧ p_response ≠ RequestStatus.declined then
    .error .InvalidArgument
  else
    match findRequest s p_request_id with
    | none => .error .NotFound
    | some req =>
      if req.seller_id ≠ p_user_id then
        .error .Forbidden
      else if req.status ≠ RequestStatus.pending then
        .error (.InvalidStateTransition req.status)
      else
        let s1 := updateRequestStatus s p_request_id p_response
        let s2 :=
          if p_response = RequestStatus.accepted then
            updatePropertyStatus s1 req.property_id PropertyStatus.sold
          else if p_response = RequestStatus.declined then
            updatePropertyStatus s1 req.property_id PropertyStatus.available
          else s1
        .ok (s2, true)

/-- Transactional wrapper: a raised error aborts the enclosing transaction,
so the caller observes the unchanged store. -/
def txCreateRequest (s : Store) (b : UserId) (p : PropertyId) (m : Option String) : Store :=
  match create_request s b p m with
  | .ok (s2, _) => s2
  | .error _ => s

/-- Transactional wrapper for `cancel_request`. -/
def txCancelRequest (s : Store) (rid : RequestId) (u : UserId) : Store :=
  match cancel_request s rid u with
  | .ok (s2, _) => s2
  | .error _ => s

/-- Transactional wrapper for `respond_to_request`. -/
def txRespondToRequest (s : Store) (rid : RequestId) (u : UserId) (d : RequestStatus) : Store :=
  match respond_to_request s rid u d with
  | .ok (s2, _) => s2
  | .error _ => s

/-- Number of pending requests a buyer owns in a request table
(`SELECT count(*) FROM requests WHERE buyer_id = b AND status = 'pending'`). -/
def pendingIn (l : List Request) (b : UserId) : Nat :=
  (l.filter (fun r => r.buyer_id == b && r.status == RequestStatus.pending)).length

/-- Number of pending requests a buyer owns in the store. -/
def pendingCount (s : Store) (b : UserId) : Nat :=
  pendingIn s.requests b

/-- States reachable from an initial store with an empty `requests` table
(direct INSERT into `requests` is blocked by RLS) through listing creation
and the three reservation-engine operations. -/
inductive Reachable : Store → Prop
  | start (props : List Property) :
      Reachable { properties := props, requests := [], history := [] }
  | listing {s : Store} (p : Property) :
      Reachable s → Reachable (insertProperty s p)
  | create {s s' : Store} {b : UserId} {p : PropertyId} {m : Option String}
      {rid : RequestId} :
      Reachable s → create_request s b p m = .ok (s', rid) → Reachable s'
  | cancel {s s' : Store} {rid : RequestId} {u : UserId} {ans : Bool} :
      Reachable s → cancel_request s rid u = .ok (s', ans) → Reachable s'
  | respond {s s' : Store} {rid : RequestId} {u : UserId} {d : RequestStatus}
      {ans : Bool} :
      Reachable s → respond_to_request s rid u d = .ok (s', ans) → Reachable s'

/-- Replaying the audit trail of one property: the status after the last
history record affecting it, starting from `start` when it has none. -/
def replayStatus (s : Store) (pid : PropertyId) (start : PropertyStatus) : PropertyStatus :=
  (s.history.filter (fun h => h.property_id == pid)).foldl (fun _ h => h.new_status) start

/-- RLS policy "Property owners can update own properties": USING
`auth.uid() = seller_id` on the old row and WITH CHECK `auth.uid() =
seller_id` on the new row; no column (status included) is otherwise
constrained. -/
def propertyUpdatePolicy (uid : UserId) (old new : Property) : Bool :=
  (uid == old.seller_id) && (uid == new.seller_id)

/-- RLS policy "Buyers can update own pending requests": USING
`auth.uid() = buyer_id AND status = 'pending'` and WITH CHECK
`auth.uid() = buyer_id AND status IN ('pending', 'cancelled')`. -/
def buyerRequestUpdatePolicy (uid : UserId) (old new : Request) : Bool :=
  (uid == old.buyer_id) && (old.status == RequestStatus.pending) &&
  ((uid == new.buyer_id) &&
    (new.status == RequestStatus.pending || new.status == RequestStatus.cancelled))

/-- RLS policy "Sellers can respond to requests": USING
`auth.uid() = seller_id AND status = 'pending'` and WITH CHECK
`auth.uid() = seller_id AND status IN ('pending', 'accepted', 'declined')`. -/
def sellerRequestUpdatePolicy (uid : UserId) (old new : Request) : Bool :=
  (uid == old.seller_id) && (old.status == RequestStatus.pending) &&
  ((uid == new.seller_id) &&
    (new.status == RequestStatus.pending || new.status == RequestStatus.accepted ||
      new.status == RequestStatus.declined))

/-- A direct UPDATE of a request row by an authenticated client is allowed
when either UPDATE policy on `requests` permits it. -/
def requestUpdateAllowed (uid : UserId) (old new : Request) : Bool :=
  buyerRequestUpdatePolicy uid old new || sellerRequestUpdatePolicy uid old new

/-- `requests` has no INSERT policy and RLS denies by default: direct
INSERT by an authenticated client is never allowed. -/
def requestInsertAllowed (_uid : UserId) (_r : Request) : Bool :=
  false

/-- `requests` has no DELETE policy and RLS denies by default. -/
def requestDeleteAllowed (_uid : UserId) (_r : Request) : Bool :=
  false

/-- The `ERRCODE` each engine error is raised with in the plpgsql
functions (the `code` field the client sees on the rpc error). -/
inductive SqlErrcode
  | P0001
  | P0002
  | P0003
  | P0004
  | P0005
  | E23505
deriving DecidableEq, Repr

/-- Which `ERRCODE` each engine failure carries, read off the RAISE
EXCEPTION statements of the three functions.  Note that
InvalidStateTransition shares P0001 with PropertyNotAvailable. -/
def errcodeOf : EngineError → SqlErrcode
  | .NotFound => .P0002
  | .PropertyNotAvailable _ => .P0001
  | .SelfRequestForbidden => .P0003
  | .DuplicatePendingRequest => .E23505
  | .Forbidden => .P0004
  | .InvalidStateTransition _ => .P0001
  | .InvalidArgument => .P0005

/-- The client-visible error classes thrown by `src/api/requests.ts`. -/
inductive ClientError
  | propertyNotAvailableError
  | activePendingRequestError
  | networkError
  | genericError
deriving DecidableEq, Repr

/-- Error mapping of the façade's `createRequest`: code P0001 →
PropertyNotAvailableError; code 23505 → ActivePendingRequestError; a
message mentioning network/fetch → NetworkError; everything else → a plain
`Error` with the raw message. -/
def mapCreateRequestError (code : SqlErrcode) (messageMentionsNetwork : Bool) : ClientError :=
  if code = SqlErrcode.P0001 then ClientError.propertyNotAvailableError
  else if code = SqlErrcode.E23505 then ClientError.activePendingRequestError
  else if messageMentionsNetwork then ClientError.networkError
  else ClientError.genericError

/-- Error mapping of the façade's `cancelRequest`: every failure is
rethrown as a plain `Error` with the raw message. -/
def mapCancelRequestError (_code : SqlErrcode) (_messageMentionsNetwork : Bool) : ClientError :=
  ClientError.genericError

/-- The message argument the façade passes to the rpc: `message || null`
(the JS `||` maps the empty string to null); no other validation and no
length bound is applied. -/
def facadeMessageArg (m : Option String) : Option String :=
  match m with
  | none => none
  | some str => if str = "" then none else some str

/-! ### Basic lemmas about the store operations -/

theorem freshRequestId_gt (l : List Request) :
    ∀ r ∈ l, r.id < l.foldr (fun r m => max (r.id + 1) m) 0 := by
  induction l with
  | nil => intro r h; cases h
  | cons a l ih =>
    intro r h
    rcases List.mem_cons.mp h with h | h
    · subst h
      exact Nat.lt_of_lt_of_le (Nat.lt_succ_self _) (Nat.le_max_left _ _)
    · exact Nat.lt_of_lt_of_le (ih r h) (Nat.le_max_right _ _)

theorem find?_append_of_none {α : Type} (pred : α → Bool) (l1 l2 : List α)
    (h : ∀ x ∈ l1, pred x = false) :
    (l1 ++ l2).find? pred = l2.find? pred := by
  induction l1 with
  | nil => rfl
  | cons a l ih =>
    rw [List.cons_append, List.find?_cons_of_neg _ (by simp [h a (List.mem_cons_self a l)])]
    exact ih (fun x hx => h x (List.mem_cons_of_mem a hx))

theorem findRequest_insert_fresh (s : Store) (r : Request)
    (h : ∀ x ∈ s.requests, x.id ≠ r.id) :
    findRequest (insertRequest s r) r.id = some r := by
  unfold findRequest insertRequest
  rw [find?_append_of_none _ _ _ (fun x hx => by simp [h x hx])]
  simp [List.find?_cons_of_pos]

theorem find?_map_setPropertyStatus (l : List Property) (pid : PropertyId)
    (st : PropertyStatus) :
    (l.map (fun p => if p.id == pid then { p with status := st } else p)).find?
        (fun p => p.id == pid) =
      (l.find? (fun p => p.id == pid)).map (fun p => { p with status := st }) := by
  induction l with
  | nil => rfl
  | cons a l ih =>
    by_cases h : a.id = pid
    · rw [List.map_cons, if_pos (by simp [h]),
        List.find?_cons_of_pos _ (by simp [h]), List.find?_cons_of_pos _ (by simp [h])]
      rfl
    · rw [List.map_cons, if_neg (by simp [h]),
        List.find?_cons_of_neg _ (by simp [h]), List.find?_cons_of_neg _ (by simp [h])]
      exact ih

theorem find?_map_setRequestStatus (l : List Request) (rid : RequestId)
    (st : RequestStatus) :
    (l.map (fun r => if r.id == rid then { r with status := st } else r)).find?
        (fun r => r.id == rid) =
      (l.find? (fun r => r.id == rid)).map (fun r => { r with status := st }) := by
  induction l with
  | nil => rfl
  | cons a l ih =>
    by_cases h : a.id = rid
    · rw [List.map_cons, if_pos (by simp [h]),
        List.find?_cons_of_pos _ (by simp [h]), List.find?_cons_of_pos _ (by simp [h])]
      rfl
    · rw [List.map_cons, if_neg (by simp [h]),
        List.find?_cons_of_neg _ (by simp [h]), List.find?_cons_of_neg _ (by simp [h])]
      exact ih

theorem findProperty_updatePropertyStatus (s : Store) (pid : PropertyId)
    (st : PropertyStatus) :
    findProperty (updatePropertyStatus s pid st) pid =
      (findProperty s pid).map (fun p => { p with status := st }) :=
  find?_map_setPropertyStatus s.properties pid st

theorem findRequest_updateRequestStatus (s : Store) (rid : RequestId)
    (st : RequestStatus) :
    findRequest (updateRequestStatus s rid st) rid =
      (findRequest s rid).map (fun r => { r with status := st }) :=
  find?_map_setRequestStatus s.requests rid st

/-! ### Lemmas about the pending-request count -/

theorem pendingIn_append (l1 l2 : List Request) (b : UserId) :
    pendingIn (l1 ++ l2) b = pendingIn l1 b + pendingIn l2 b := by
  unfold pendingIn
  rw [List.filter_append, List.length_append]

theorem hasPendingRequest_eq_false_iff (s : Store) (b : UserId) :
    hasPendingRequest s b = false ↔ pendingCount s b = 0 := by
  unfold hasPendingRequest pendingCount pendingIn
  rw [List.length_eq_zero, List.filter_eq_nil_iff, ← Bool.not_eq_true, List.any_eq_true]
  push_neg
  constructor
  · intro h r hr
    simpa using h r hr
  · intro h r hr
    simpa using h r hr

theorem length_filter_map_le {α : Type} (f : α → α) (p : α → Bool)
    (h : ∀ a, p (f a) = true → p a = true) (l : List α) :
    ((l.map f).filter p).length ≤ (l.filter p).length := by
  induction l with
  | nil => simp
  | cons a l ih =>
    simp only [List.map_cons, List.filter_cons]
    by_cases hfa : p (f a) = true
    · rw [if_pos hfa, if_pos (h a hfa)]
      simpa using ih
    · rw [if_neg hfa]
      by_cases ha : p a = true
      · rw [if_pos ha]
        exact Nat.le_succ_of_le ih
      · rw [if_neg ha]
        exact ih

theorem pendingIn_setStatus_le (l : List Request) (rid : RequestId)
    (st : RequestStatus) (hst : st ≠ RequestStatus.pending) (b : UserId) :
    pendingIn (l.map (fun r => if r.id == rid then { r with status := st } else r)) b ≤
      pendingIn l b := by
  unfold pendingIn
  refine length_filter_map_le _ _ ?_ l
  intro a ha
  by_cases hid : (a.id == rid) = true
  · rw [if_pos hid] at ha
    simp only [Bool.and_eq_true, beq_iff_eq] at ha
    exact absurd ha.2 hst
  · rwa [if_neg hid] at ha

/-! ### Inversion lemmas: what a successful operation implies -/

theorem create_request_ok_inv {s s' : Store} {b : UserId} {p : PropertyId}
    {m : Option String} {rid : RequestId}
    (h : create_request s b p m = .ok (s', rid)) :
    ∃ prop, findProperty s p = some prop ∧
      prop.status = PropertyStatus.available ∧
      prop.seller_id ≠ b ∧
      hasPendingRequest s b = false ∧
      rid = freshRequestId s ∧
      s' = appendHistory
        (updatePropertyStatus
          (insertRequest s
            { id := rid, buyer_id := b, property_id := p,
              seller_id := prop.seller_id, message := m,
              status := RequestStatus.pending })
          p PropertyStatus.requested)
        { property_id := p, user_id := b, action := "request_created",
          old_status := PropertyStatus.available,
          new_status := PropertyStatus.requested, request_id := some rid } := by
  unfold create_request at h
  split at h
  · exact absurd h (by simp)
  · rename_i prop hp
    split at h
    · exact absurd h (by simp)
    · split at h
      · exact absurd h (by simp)
      · split at h
        · exact absurd h (by simp)
        · rename_i h1 h2 h3
          simp only [Except.ok.injEq, Prod.mk.injEq] at h
          obtain ⟨hs, hrid⟩ := h
          refine ⟨prop, hp, by simpa using h1, h2, by simpa using h3, hrid.symm, ?_⟩
          rw [← hrid, ← hs]

theorem cancel_request_ok_inv {s s' : Store} {rid : RequestId} {u : UserId}
    {ans : Bool} (h : cancel_request s rid u = .ok (s', ans)) :
    ∃ req, findRequest s rid = some req ∧
      req.buyer_id = u ∧
      req.status = RequestStatus.pending ∧
      ans = true ∧
      s' = updatePropertyStatus (updateRequestStatus s rid RequestStatus.cancelled)
            req.property_id PropertyStatus.available := by
  unfold cancel_request at h
  split at h
  · exact absurd h (by simp)
  · rename_i req hr
    split at h
    · exact absurd h (by simp)
    · split at h
      · exact absurd h (by simp)
      · rename_i h1 h2
        simp only [Except.ok.injEq, Prod.mk.injEq] at h
        obtain ⟨hs, hans⟩ := h
        exact ⟨req, hr, by simpa using h1, by simpa using h2, hans.symm, hs.symm⟩

theorem respond_to_request_ok_inv {s s' : Store} {rid : RequestId} {u : UserId}
    {d : RequestStatus} {ans : Bool}
    (h : respond_to_request s rid u d = .ok (s', ans)) :
    (d = RequestStatus.accepted ∨ d = RequestStatus.declined) ∧
    ∃ req, findRequest s rid = some req ∧
      req.seller_id = u ∧
      req.status = RequestStatus.pending ∧
      ans = true ∧
      s' = updatePropertyStatus (updateRequestStatus s rid d) req.property_id
            (if d = RequestStatus.accepted then PropertyStatus.sold
             else PropertyStatus.available) := by
  unfold respond_to_request at h
  split at h
  · exact absurd h (by simp)
  · rename_i hd0
    have hd : d = RequestStatus.accepted ∨ d = RequestStatus.declined := by tauto
    refine ⟨hd, ?_⟩
    split at h
    · exact absurd h (by simp)
    · rename_i req hr
      split at h
      · exact absurd h (by simp)
      · split at h
        · exact absurd h (by simp)
        · rename_i h1 h2
          simp only [Except.ok.injEq, Prod.mk.injEq] at h
          obtain ⟨hs, hans⟩ := h
          refine ⟨req, hr, by simpa using h1, by simpa using h2, hans.symm, ?_⟩
          rcases hd with hd | hd
          · subst hd
            rw [← hs]
            simp
          · subst hd
            rw [← hs]
            simp

/-! ### Forward lemmas: the result of each operation on each path -/

theorem create_request_notFound {s : Store} {b : UserId} {p : PropertyId}
    {m : Option String} (hp : findProperty s p = none) :
    create_request s b p m = .error .NotFound := by
  unfold create_request
  simp only [hp]

theorem create_request_notAvailable {s : Store} {b : UserId} {p : PropertyId}
    {m : Option String} {prop : Property} (hp : findProperty s p = some prop)
    (hav : prop.status ≠ PropertyStatus.available) :
    create_request s b p m = .error (.PropertyNotAvailable prop.status) := by
  unfold create_request
  simp only [hp]
  rw [if_pos hav]

theorem create_request_selfForbidden {s : Store} {b : UserId} {p : PropertyId}
    {m : Option String} {prop : Property} (hp : findProperty s p = some prop)
    (hav : prop.status = PropertyStatus.available) (hself : prop.seller_id = b) :
    create_request s b p m = .error .SelfRequestForbidden := by
  unfold create_request
  simp only [hp]
  rw [if_neg (not_not_intro hav), if_pos hself]

theorem create_request_dup {s : Store} {b : UserId} {p : PropertyId}
    {m : Option String} {prop : Property} (hp : findProperty s p = some prop)
    (hav : prop.status = PropertyStatus.available) (hself : prop.seller_id ≠ b)
    (hdup : hasPendingRequest s b = true) :
    create_request s b p m = .error .DuplicatePendingRequest := by
  unfold create_request
  simp only [hp]
  rw [if_neg (not_not_intro hav), if_neg hself, if_pos hdup]

theorem create_request_eq_ok {s : Store} {b : UserId} {p : PropertyId}
    {m : Option String} {prop : Property} (hp : findProperty s p = some prop)
    (hav : prop.status = PropertyStatus.available) (hself : prop.seller_id ≠ b)
    (hdup : hasPendingRequest s b = false) :
    create_request s b p m = .ok
      (appendHistory
        (updatePropertyStatus
          (insertRequest s
            { id := freshRequestId s, buyer_id := b, property_id := p,
              seller_id := prop.seller_id, message := m,
              status := RequestStatus.pending })
          p PropertyStatus.requested)
        { property_id := p, user_id := b, action := "request_created",
          old_status := PropertyStatus.available,
          new_status := PropertyStatus.requested,
          request_id := some (freshRequestId s) },
       freshRequestId s) := by
  unfold create_request
  simp only [hp]
  rw [if_neg (not_not_intro hav), if_neg hself, if_neg (by simp [hdup])]

theorem cancel_request_notFound {s : Store} {rid : RequestId} {u : UserId}
    (hr : findRequest s rid = none) :
    cancel_request s rid u = .error .NotFound := by
  unfold cancel_request
  simp only [hr]

theorem cancel_request_forbidden {s : Store} {rid : RequestId} {u : UserId}
    {req : Request} (hr : findRequest s rid = some req) (hb : req.buyer_id ≠ u) :
    cancel_request s rid u = .error .Forbidden := by
  unfold cancel_request
  simp only [hr]
  rw [if_pos hb]

theorem cancel_request_invalidState {s : Store} {rid : RequestId} {u : UserId}
    {req : Request} (hr : findRequest s rid = some req) (hb : req.buyer_id = u)
    (hst : req.status ≠ RequestStatus.pending) :
    cancel_request s rid u = .error (.InvalidStateTransition req.status) := by
  unfold cancel_request
  simp only [hr]
  rw [if_neg (not_not_intro hb), if_pos hst]

theorem cancel_request_eq_ok {s : Store} {rid : RequestId} {u : UserId}
    {req : Request} (hr : findRequest s rid = some req) (hb : req.buyer_id = u)
    (hst : req.status = RequestStatus.pending) :
    cancel_request s rid u = .ok
      (updatePropertyStatus (updateRequestStatus s rid RequestStatus.cancelled)
        req.property_id PropertyStatus.available, true) := by
  unfold cancel_request
  simp only [hr]
  rw [if_neg (not_not_intro hb), if_neg (not_not_intro hst)]

theorem respond_to_request_invalidArgument {s : Store} {rid : RequestId}
    {u : UserId} {d : RequestStatus} (hd1 : d ≠ RequestStatus.accepted)
    (hd2 : d ≠ RequestStatus.declined) :
    respond_to_request s rid u d = .error .InvalidArgument := by
  unfold respond_to_request
  rw [if_pos ⟨hd1, hd2⟩]

theorem respond_to_request_notFound {s : Store} {rid : RequestId} {u : UserId}
    {d : RequestStatus} (hd : d = RequestStatus.accepted ∨ d = RequestStatus.declined)
    (hr : findRequest s rid = none) :
    respond_to_request s rid u d = .error .NotFound := by
  unfold respond_to_request
  rw [if_neg (by tauto)]
  simp only [hr]

theorem respond_to_request_forbidden {s : Store} {rid : RequestId} {u : UserId}
    {d : RequestStatus} {req : Request}
    (hd : d = RequestStatus.accepted ∨ d = RequestStatus.declined)
    (hr : findRequest s rid = some req) (hb : req.seller_id ≠ u) :
    respond_to_request s rid u d = .error .Forbidden := by
  unfold respond_to_request
  rw [if_neg (by tauto)]
  simp only [hr]
  rw [if_pos hb]

theorem respond_to_request_invalidState {s : Store} {rid : RequestId} {u : UserId}
    {d : RequestStatus} {req : Request}
    (hd : d = RequestStatus.accepted ∨ d = RequestStatus.declined)
    (hr : findRequest s rid = some req) (hb : req.seller_id = u)
    (hst : req.status ≠ RequestStatus.pending) :
    respond_to_request s rid u d = .error (.InvalidStateTransition req.status) := by
  unfold respond_to_request
  rw [if_neg (by tauto)]
  simp only [hr]
  rw [if_neg (not_not_intro hb), if_pos hst]

theorem respond_to_request_eq_ok {s : Store} {rid : RequestId} {u : UserId}
    {d : RequestStatus} {req : Request}
    (hd : d = RequestStatus.accepted ∨ d = RequestStatus.declined)
    (hr : findRequest s rid = some req) (hb : req.seller_id = u)
    (hst : req.status = RequestStatus.pending) :
    respond_to_request s rid u d = .ok
      (updatePropertyStatus (updateRequestStatus s rid d) req.property_id
        (if d = RequestStatus.accepted then PropertyStatus.sold
         else PropertyStatus.available), true) := by
  unfold respond_to_request
  rw [if_neg (by tauto)]
  simp only [hr]
  rw [if_neg (not_not_intro hb), if_neg (not_not_intro hst)]
  rcases hd with hd | hd
  · subst hd
    simp
  · subst hd
    simp

/-! ### The buyer-level pending invariant on reachable states -/

theorem pendingCount_insertRequest (s : Store) (r : Request) (b : UserId) :
    pendingCount (insertRequest s r) b = pendingCount s b + pendingIn [r] b :=
  pendingIn_append s.requests [r] b

theorem pendingCount_updatePropertyStatus (s : Store) (pid : PropertyId)
    (st : PropertyStatus) (b : UserId) :
    pendingCount (updatePropertyStatus s pid st) b = pendingCount s b := rfl

theorem pendingCount_appendHistory (s : Store) (h : HistoryRecord) (b : UserId) :
    pendingCount (appendHistory s h) b = pendingCount s b := rfl

theorem pendingCount_insertProperty (s : Store) (p : Property) (b : UserId) :
    pendingCount (insertProperty s p) b = pendingCount s b := rfl

theorem pendingCount_updateRequestStatus_le (s : Store) (rid : RequestId)
    (st : RequestStatus) (hst : st ≠ RequestStatus.pending) (b : UserId) :
    pendingCount (updateRequestStatus s rid st) b ≤ pendingCount s b :=
  pendingIn_setStatus_le s.requests rid st hst b

theorem pendingCount_le_one_of_reachable {s : Store} (h : Reachable s) (b : UserId) :
    pendingCount s b ≤ 1 := by
  induction h with
  | start props => simp [pendingCount, pendingIn]
  | listing p _ ih => exact ih
  | @create s0 s' b0 p0 m0 rid0 hreach hok ih =>
    obtain ⟨prop, hp, hav, hself, hdup, hrid, hs'⟩ := create_request_ok_inv hok
    subst hs'
    rw [pendingCount_appendHistory, pendingCount_updatePropertyStatus,
      pendingCount_insertRequest]
    by_cases hb : b0 = b
    · subst hb
      have hzero := (hasPendingRequest_eq_false_iff s0 b0).mp hdup
      have hone : pendingIn
          [{ id := rid0, buyer_id := b0, property_id := p0,
             seller_id := prop.seller_id, message := m0,
             status := RequestStatus.pending }] b0 = 1 := by
        simp [pendingIn]
      omega
    · have hz : pendingIn
          [{ id := rid0, buyer_id := b0, property_id := p0,
             seller_id := prop.seller_id, message := m0,
             status := RequestStatus.pending }] b = 0 := by
        simp [pendingIn, hb]
      rw [hz]
      simpa using ih
  | @cancel s0 s' rid0 u0 ans0 hreach hok ih =>
    obtain ⟨req, hr, hb, hst, hans, hs'⟩ := cancel_request_ok_inv hok
    subst hs'
    rw [pendingCount_updatePropertyStatus]
    exact Nat.le_trans
      (pendingCount_updateRequestStatus_le s0 rid0 RequestStatus.cancelled
        (by simp) b) ih
  | @respond s0 s' rid0 u0 d0 ans0 hreach hok ih =>
    obtain ⟨hd, req, hr, hb, hst, hans, hs'⟩ := respond_to_request_ok_inv hok
    subst hs'
    rw [pendingCount_updatePropertyStatus]
    have hdne : d0 ≠ RequestStatus.pending := by
      rcases hd with hd | hd <;> (subst hd; simp)
    exact Nat.le_trans
      (pendingCount_updateRequestStatus_le s0 rid0 d0 hdne b) ih

/-! ### Projection lemmas: operations on one table leave the others alone -/

theorem findRequest_updatePropertyStatus2 (s : Store) (pid : PropertyId)
    (st : PropertyStatus) (rid : RequestId) :
    findRequest (updatePropertyStatus s pid st) rid = findRequest s rid := rfl

theorem findRequest_appendHistory (s : Store) (h : HistoryRecord) (rid : RequestId) :
    findRequest (appendHistory s h) rid = findRequest s rid := rfl

theorem findProperty_insertRequest (s : Store) (r : Request) (pid : PropertyId) :
    findProperty (insertRequest s r) pid = findProperty s pid := rfl

theorem findProperty_appendHistory (s : Store) (h : HistoryRecord) (pid : PropertyId) :
    findProperty (appendHistory s h) pid = findProperty s pid := rfl

theorem findProperty_updateRequestStatus (s : Store) (rid : RequestId)
    (st : RequestStatus) (pid : PropertyId) :
    findProperty (updateRequestStatus s rid st) pid = findProperty s pid := rfl

/-! ### Concrete stores used to instantiate the claims -/

/-- One available property, listed by seller 10; no requests yet. -/
def storeA : Store :=
  { properties := [⟨1, 10, PropertyStatus.available⟩], requests := [], history := [] }

/-- Two available properties; buyer 2 already holds a pending request
(id 7) for property 2. -/
def storeB : Store :=
  { properties := [⟨1, 10, PropertyStatus.available⟩, ⟨2, 20, PropertyStatus.available⟩],
    requests := [⟨7, 2, 2, 20, none, RequestStatus.pending⟩],
    history := [] }

/-- A pending request (id 0, buyer 2, seller 10) whose property is `sold`. -/
def storeC : Store :=
  { properties := [⟨1, 10, PropertyStatus.sold⟩],
    requests := [⟨0, 2, 1, 10, none, RequestStatus.pending⟩],
    history := [] }

/-! ### The claims -/

/-- Claim C1: for every property P that exists with status `available` and
seller S, and every buyer A ≠ S with no pending request anywhere in the
system, `create_request(A, P, message)` succeeds, returns the id of a newly
inserted request row with buyer_id = A, property_id = P, seller_id = S
(captured from the property), the given message and status `pending`, and
sets P's status to `requested`. -/
theorem claim_C1 (s : Store) (b : UserId) (p : PropertyId) (m : Option String)
    (prop : Property) (hp : findProperty s p = some prop)
    (hav : prop.status = PropertyStatus.available)
    (hself : prop.seller_id ≠ b)
    (hdup : hasPendingRequest s b = false) :
    ∃ s' rid, create_request s b p m = .ok (s', rid) ∧
      (∀ r ∈ s.requests, r.id ≠ rid) ∧
      findRequest s' rid = some
        { id := rid, buyer_id := b, property_id := p,
          seller_id := prop.seller_id, message := m,
          status := RequestStatus.pending } ∧
      findProperty s' p = some { prop with status := PropertyStatus.requested } := by
  refine ⟨_, freshRequestId s, create_request_eq_ok hp hav hself hdup, ?_, ?_, ?_⟩
  · intro r hr
    exact Nat.ne_of_lt (freshRequestId_gt s.requests r hr)
  · rw [findRequest_appendHistory, findRequest_updatePropertyStatus2]
    exact findRequest_insert_fresh s _
      (fun x hx => Nat.ne_of_lt (freshRequestId_gt s.requests x hx))
  · rw [findProperty_appendHistory, findProperty_updatePropertyStatus,
      findProperty_insertRequest, hp]
    rfl

/-- Witness for C1: buyer 2 requests the available property 1 of seller 10. -/
theorem claim_C1_witness :
    ∃ s' rid, create_request storeA 2 1 (some "hi") = .ok (s', rid) ∧
      (∀ r ∈ storeA.requests, r.id ≠ rid) ∧
      findRequest s' rid = some
        { id := rid, buyer_id := 2, property_id := 1, seller_id := 10,
          message := some "hi", status := RequestStatus.pending } ∧
      findProperty s' 1 = some ⟨1, 10, PropertyStatus.requested⟩ :=
  claim_C1 storeA 2 1 (some "hi") ⟨1, 10, PropertyStatus.available⟩ rfl rfl
    (by decide) rfl

/-- Claim C2: in every reachable state each buyer owns at most one pending
request — every reservation-engine operation preserves this — and a
create_request call by a buyer who already holds a pending request fails
with DuplicatePendingRequest, leaving the targeted property unchanged. -/
theorem claim_C2 :
    (∀ s, Reachable s → ∀ b, pendingCount s b ≤ 1) ∧
    (∀ s b p m (prop : Property), findProperty s p = some prop →
      prop.status = PropertyStatus.available → prop.seller_id ≠ b →
      hasPendingRequest s b = true →
      create_request s b p m = .error .DuplicatePendingRequest ∧
      findProperty (txCreateRequest s b p m) p = some prop) := by
  constructor
  · exact fun s h b => pendingCount_le_one_of_reachable h b
  · intro s b p m prop hp hav hself hdup
    have he := create_request_dup (m := m) hp hav hself hdup
    refine ⟨he, ?_⟩
    unfold txCreateRequest
    rw [he]
    exact hp

/-- Witness for C2: the empty store is reachable with pending count 0, and
in `storeB` buyer 2 (pending request elsewhere) is rejected on property 1,
which stays `available`. -/
theorem claim_C2_witness :
    pendingCount { properties := [], requests := [], history := [] } 0 ≤ 1 ∧
    (create_request storeB 2 1 none = .error .DuplicatePendingRequest ∧
      findProperty (txCreateRequest storeB 2 1 none) 1 =
        some ⟨1, 10, PropertyStatus.available⟩) :=
  ⟨claim_C2.1 _ (Reachable.start []) 0,
   claim_C2.2 storeB 2 1 none ⟨1, 10, PropertyStatus.available⟩ rfl rfl
     (by decide) rfl⟩

/-- Claim C3: create_request fails NotFound iff the property is absent;
otherwise PropertyNotAvailable iff its status is not `available`; otherwise
SelfRequestForbidden iff the seller is the requesting buyer; otherwise
DuplicatePendingRequest iff the buyer already holds a pending request — in
exactly this order. -/
theorem claim_C3 (s : Store) (b : UserId) (p : PropertyId) (m : Option String) :
    (create_request s b p m = .error .NotFound ↔ findProperty s p = none) ∧
    ∀ prop, findProperty s p = some prop →
      ((create_request s b p m = .error (.PropertyNotAvailable prop.status)) ↔
        prop.status ≠ PropertyStatus.available) ∧
      (prop.status = PropertyStatus.available →
        ((create_request s b p m = .error .SelfRequestForbidden) ↔
          prop.seller_id = b) ∧
        (prop.seller_id ≠ b →
          ((create_request s b p m = .error .DuplicatePendingRequest) ↔
            hasPendingRequest s b = true))) := by
  constructor
  · constructor
    · intro h
      cases hp : findProperty s p with
      | none => rfl
      | some prop =>
        exfalso
        by_cases hav : prop.status = PropertyStatus.available
        · by_cases hself : prop.seller_id = b
          · rw [create_request_selfForbidden hp hav hself] at h
            simp at h
          · by_cases hdup : hasPendingRequest s b = true
            · rw [create_request_dup hp hav hself hdup] at h
              simp at h
            · rw [create_request_eq_ok hp hav hself (by simpa using hdup)] at h
              simp at h
        · rw [create_request_notAvailable hp hav] at h
          simp at h
    · exact fun hp => create_request_notFound hp
  · intro prop hp
    refine ⟨⟨?_, fun hav => create_request_notAvailable hp hav⟩, ?_⟩
    · intro h hav
      by_cases hself : prop.seller_id = b
      · rw [create_request_selfForbidden hp hav hself] at h
        simp at h
      · by_cases hdup : hasPendingRequest s b = true
        · rw [create_request_dup hp hav hself hdup] at h
          simp at h
        · rw [create_request_eq_ok hp hav hself (by simpa using hdup)] at h
          simp at h
    · intro hav
      refine ⟨⟨?_, fun hself => create_request_selfForbidden hp hav hself⟩, ?_⟩
      · intro h
        by_contra hself
        by_cases hdup : hasPendingRequest s b = true
        · rw [create_request_dup hp hav hself hdup] at h
          simp at h
        · rw [create_request_eq_ok hp hav hself (by simpa using hdup)] at h
          simp at h
      · intro hself
        refine ⟨?_, fun hdup => create_request_dup hp hav hself hdup⟩
        intro h
        by_contra hdup
        rw [create_request_eq_ok hp hav hself (by simpa using hdup)] at h
        simp at h

/-- Witness for C3: NotFound on the empty store; DuplicatePendingRequest
iff buyer 2 holds a pending request in `storeB`. -/
theorem claim_C3_witness :
    (create_request { properties := [], requests := [], history := [] } 2 1 none =
        .error .NotFound ↔
      findProperty { properties := [], requests := [], history := [] } 1 = none) ∧
    (create_request storeB 2 1 none = .error .DuplicatePendingRequest ↔
      hasPendingRequest storeB 2 = true) :=
  ⟨(claim_C3 { properties := [], requests := [], history := [] } 2 1 none).1,
   (((claim_C3 storeB 2 1 none).2 ⟨1, 10, PropertyStatus.available⟩ rfl).2 rfl).2
     (by decide)⟩

/-- Claim C4: every failure of the three operations aborts the transaction
and leaves the store unchanged; in particular a DuplicatePendingRequest
failure after the property was found available applies no property
update. -/
theorem claim_C4 :
    (∀ s b p m e, create_request s b p m = .error e → txCreateRequest s b p m = s) ∧
    (∀ s rid u e, cancel_request s rid u = .error e → txCancelRequest s rid u = s) ∧
    (∀ s rid u d e, respond_to_request s rid u d = .error e →
      txRespondToRequest s rid u d = s) ∧
    (∀ s b p m (prop : Property), findProperty s p = some prop →
      prop.status = PropertyStatus.available → prop.seller_id ≠ b →
      hasPendingRequest s b = true → txCreateRequest s b p m = s) := by
  refine ⟨?_, ?_, ?_, ?_⟩
  · intro s b p m e h
    unfold txCreateRequest
    rw [h]
  · intro s rid u e h
    unfold txCancelRequest
    rw [h]
  · intro s rid u d e h
    unfold txRespondToRequest
    rw [h]
  · intro s b p m prop hp hav hself hdup
    unfold txCreateRequest
    rw [create_request_dup (m := m) hp hav hself hdup]

/-- Witness for C4: failed calls on concrete stores leave them unchanged. -/
theorem claim_C4_witness :
    txCreateRequest { properties := [], requests := [], history := [] } 2 1 none =
      { properties := [], requests := [], history := [] } ∧
    txCancelRequest { properties := [], requests := [], history := [] } 0 2 =
      { properties := [], requests := [], history := [] } ∧
    txRespondToRequest storeC 0 10 RequestStatus.cancelled = storeC ∧
    txCreateRequest storeB 2 1 none = storeB :=
  ⟨claim_C4.1 _ 2 1 none .NotFound rfl,
   claim_C4.2.1 _ 0 2 .NotFound rfl,
   claim_C4.2.2.1 storeC 0 10 RequestStatus.cancelled .InvalidArgument rfl,
   claim_C4.2.2.2 storeB 2 1 none ⟨1, 10, PropertyStatus.available⟩ rfl rfl
     (by decide) rfl⟩

/-- Claim C5: cancel_request fails NotFound when the request is absent,
Forbidden when the caller is not the buyer, InvalidStateTransition when the
request is not pending (in that order); otherwise it sets the request to
`cancelled`, the referenced property to `available`, and returns true. -/
theorem claim_C5 (s : Store) (rid : RequestId) (caller : UserId) :
    (cancel_request s rid caller = .error .NotFound ↔ findRequest s rid = none) ∧
    ∀ req, findRequest s rid = some req →
      (req.buyer_id ≠ caller → cancel_request s rid caller = .error .Forbidden) ∧
      (req.buyer_id = caller → req.status ≠ RequestStatus.pending →
        cancel_request s rid caller = .error (.InvalidStateTransition req.status)) ∧
      (req.buyer_id = caller → req.status = RequestStatus.pending →
        ∃ s', cancel_request s rid caller = .ok (s', true) ∧
          findRequest s' rid = some { req with status := RequestStatus.cancelled } ∧
          findProperty s' req.property_id =
            (findProperty s req.property_id).map
              (fun pr => { pr with status := PropertyStatus.available })) := by
  constructor
  · constructor
    · intro h
      cases hr : findRequest s rid with
      | none => rfl
      | some req =>
        exfalso
        by_cases hb : req.buyer_id = caller
        · by_cases hst : req.status = RequestStatus.pending
          · rw [cancel_request_eq_ok hr hb hst] at h
            simp at h
          · rw [cancel_request_invalidState hr hb hst] at h
            simp at h
        · rw [cancel_request_forbidden hr hb] at h
          simp at h
    · exact fun hr => cancel_request_notFound hr
  · intro req hr
    refine ⟨fun hb => cancel_request_forbidden hr hb,
      fun hb hst => cancel_request_invalidState hr hb hst, ?_⟩
    intro hb hst
    refine ⟨_, cancel_request_eq_ok hr hb hst, ?_, ?_⟩
    · rw [findRequest_updatePropertyStatus2, findRequest_updateRequestStatus, hr]
      rfl
    · rw [findProperty_updatePropertyStatus, findProperty_updateRequestStatus]

/-- Witness for C5: buyer 2 cancels their pending request 0 in `storeC`. -/
theorem claim_C5_witness :
    ∃ s', cancel_request storeC 0 2 = .ok (s', true) ∧
      findRequest s' 0 = some ⟨0, 2, 1, 10, none, RequestStatus.cancelled⟩ ∧
      findProperty s' 1 =
        (findProperty storeC 1).map
          (fun pr => { pr with status := PropertyStatus.available }) :=
  (((claim_C5 storeC 0 2).2 ⟨0, 2, 1, 10, none, RequestStatus.pending⟩ rfl).2.2)
    rfl rfl

/-- Claim C6: respond_to_request rejects any decision other than accepted
or declined with InvalidArgument before the request row is read (for every
store); otherwise NotFound / Forbidden (caller must be the seller) /
InvalidStateTransition in that order; on success the request takes the
decision, the property becomes `sold` on accept and `available` on
decline, and true is returned. -/
theorem claim_C6 (s : Store) (rid : RequestId) (caller : UserId) (d : RequestStatus) :
    (d ≠ RequestStatus.accepted → d ≠ RequestStatus.declined →
      respond_to_request s rid caller d = .error .InvalidArgument) ∧
    (d = RequestStatus.accepted ∨ d = RequestStatus.declined →
      (respond_to_request s rid caller d = .error .NotFound ↔
        findRequest s rid = none) ∧
      ∀ req, findRequest s rid = some req →
        (req.seller_id ≠ caller →
          respond_to_request s rid caller d = .error .Forbidden) ∧
        (req.seller_id = caller → req.status ≠ RequestStatus.pending →
          respond_to_request s rid caller d =
            .error (.InvalidStateTransition req.status)) ∧
        (req.seller_id = caller → req.status = RequestStatus.pending →
          ∃ s', respond_to_request s rid caller d = .ok (s', true) ∧
            findRequest s' rid = some { req with status := d } ∧
            findProperty s' req.property_id =
              (findProperty s req.property_id).map
                (fun pr => { pr with status :=
                  if d = RequestStatus.accepted then PropertyStatus.sold
                  else PropertyStatus.available }))) := by
  constructor
  · exact fun h1 h2 => respond_to_request_invalidArgument h1 h2
  · intro hd
    constructor
    · constructor
      · intro h
        cases hr : findRequest s rid with
        | none => rfl
        | some req =>
          exfalso
          by_cases hb : req.seller_id = caller
          · by_cases hst : req.status = RequestStatus.pending
            · rw [respond_to_request_eq_ok hd hr hb hst] at h
              simp at h
            · rw [respond_to_request_invalidState hd hr hb hst] at h
              simp at h
          · rw [respond_to_request_forbidden hd hr hb] at h
            simp at h
      · exact fun hr => respond_to_request_notFound hd hr
    · intro req hr
      refine ⟨fun hb => respond_to_request_forbidden hd hr hb,
        fun hb hst => respond_to_request_invalidState hd hr hb hst, ?_⟩
      intro hb hst
      refine ⟨_, respond_to_request_eq_ok hd hr hb hst, ?_, ?_⟩
      · rw [findRequest_updatePropertyStatus2, findRequest_updateRequestStatus, hr]
        rfl
      · rw [findProperty_updatePropertyStatus, findProperty_updateRequestStatus]

/-- Witness for C6: a `pending` decision is InvalidArgument on the empty
store; seller 10 accepts request 0 in `storeC`. -/
theorem claim_C6_witness :
    respond_to_request { properties := [], requests := [], history := [] } 0 10
        RequestStatus.pending = .error .InvalidArgument ∧
    ∃ s', respond_to_request storeC 0 10 RequestStatus.accepted = .ok (s', true) ∧
      findRequest s' 0 = some ⟨0, 2, 1, 10, none, RequestStatus.accepted⟩ ∧
      findProperty s' 1 =
        (findProperty storeC 1).map
          (fun pr => { pr with status :=
            if RequestStatus.accepted = RequestStatus.accepted then
              PropertyStatus.sold
            else PropertyStatus.available }) :=
  ⟨(claim_C6 { properties := [], requests := [], history := [] } 0 10
      RequestStatus.pending).1 (by decide) (by decide),
   ((((claim_C6 storeC 0 10 RequestStatus.accepted).2 (Or.inl rfl)).2
      ⟨0, 2, 1, 10, none, RequestStatus.pending⟩ rfl).2.2) rfl rfl⟩

/-- Claim C10 (implicit): cancel_request and respond_to_request with
decision `declined` write the referenced property's status to `available`
unconditionally — for every prior property status, and even when the
property row is absent, the property ends at `available` once the
pending/authorization checks pass. -/
theorem claim_C10 (s : Store) (rid : RequestId) (req : Request)
    (hr : findRequest s rid = some req) (hst : req.status = RequestStatus.pending) :
    (∀ caller, req.buyer_id = caller →
      ∃ s', cancel_request s rid caller = .ok (s', true) ∧
        findProperty s' req.property_id =
          (findProperty s req.property_id).map
            (fun pr => { pr with status := PropertyStatus.available })) ∧
    (∀ caller, req.seller_id = caller →
      ∃ s', respond_to_request s rid caller RequestStatus.declined = .ok (s', true) ∧
        findProperty s' req.property_id =
          (findProperty s req.property_id).map
            (fun pr => { pr with status := PropertyStatus.available })) := by
  constructor
  · intro caller hb
    refine ⟨_, cancel_request_eq_ok hr hb hst, ?_⟩
    rw [findProperty_updatePropertyStatus, findProperty_updateRequestStatus]
  · intro caller hb
    have hok := respond_to_request_eq_ok (Or.inr rfl) hr hb hst
    rw [if_neg (by decide : ¬(RequestStatus.declined = RequestStatus.accepted))] at hok
    refine ⟨_, hok, ?_⟩
    rw [findProperty_updatePropertyStatus, findProperty_updateRequestStatus]

/-- Witness for C10: in `storeC` the property is `sold`, yet cancelling the
pending request (or declining it) sets it to `available`. -/
theorem claim_C10_witness :
    (∃ s', cancel_request storeC 0 2 = .ok (s', true) ∧
      findProperty s' 1 =
        (findProperty storeC 1).map
          (fun pr => { pr with status := PropertyStatus.available })) ∧
    (∃ s', respond_to_request storeC 0 10 RequestStatus.declined = .ok (s', true) ∧
      findProperty s' 1 =
        (findProperty storeC 1).map
          (fun pr => { pr with status := PropertyStatus.available })) :=
  ⟨(claim_C10 storeC 0 ⟨0, 2, 1, 10, none, RequestStatus.pending⟩ rfl rfl).1 2 rfl,
   (claim_C10 storeC 0 ⟨0, 2, 1, 10, none, RequestStatus.pending⟩ rfl rfl).2 10 rfl⟩

/-- The store after buyer 2 requests property 1 of `storeA` (request id 0). -/
def storeH1 : Store := txCreateRequest storeA 2 1 none

/-- The store after buyer 2 then cancels request 0. -/
def storeH2 : Store := txCancelRequest storeH1 0 2

/-- Counterexample to C7: after a create followed by a cancel — a reachable
state — replaying the audit history of property 1 yields `requested` while
its actual status is `available`: cancel_request writes no history
record. -/
theorem claim_C7_counterexample :
    Reachable storeH2 ∧
    findProperty storeH2 1 = some ⟨1, 10, PropertyStatus.available⟩ ∧
    replayStatus storeH2 1 PropertyStatus.available = PropertyStatus.requested ∧
    PropertyStatus.requested ≠ PropertyStatus.available := by
  refine ⟨?_, rfl, rfl, by decide⟩
  have h0 : Reachable storeA := Reachable.start [⟨1, 10, PropertyStatus.available⟩]
  have h1 : Reachable storeH1 :=
    Reachable.create h0 (show create_request storeA 2 1 none = .ok (storeH1, 0) from rfl)
  exact Reachable.cancel h1
    (show cancel_request storeH1 0 2 = .ok (storeH2, true) from rfl)

/-- Claim C7 (amended): only create_request appends to property_history —
one record capturing available → requested and the new request id;
cancel_request and respond_to_request change property status without
appending any history record, so replaying the history reproduces the
property status only up to the most recent request creation. -/
theorem claim_C7 :
    (∀ s b p m s' rid, create_request s b p m = .ok (s', rid) →
      s'.history = s.history ++
        [{ property_id := p, user_id := b, action := "request_created",
           old_status := PropertyStatus.available,
           new_status := PropertyStatus.requested, request_id := some rid }]) ∧
    (∀ s rid u s' ans, cancel_request s rid u = .ok (s', ans) →
      s'.history = s.history) ∧
    (∀ s rid u d s' ans, respond_to_request s rid u d = .ok (s', ans) →
      s'.history = s.history) := by
  refine ⟨?_, ?_, ?_⟩
  · intro s b p m s' rid h
    obtain ⟨prop, hp, hav, hself, hdup, hrid, hs'⟩ := create_request_ok_inv h
    subst hs'
    rfl
  · intro s rid u s' ans h
    obtain ⟨req, hr, hb, hst, hans, hs'⟩ := cancel_request_ok_inv h
    subst hs'
    rfl
  · intro s rid u d s' ans h
    obtain ⟨hd, req, hr, hb, hst, hans, hs'⟩ := respond_to_request_ok_inv h
    subst hs'
    rfl

/-- Witness for C7 (amended): the create into `storeH1` appends exactly one
record; the cancel into `storeH2` appends none. -/
theorem claim_C7_witness :
    storeH1.history = storeA.history ++
      [{ property_id := 1, user_id := 2, action := "request_created",
         old_status := PropertyStatus.available,
         new_status := PropertyStatus.requested, request_id := some 0 }] ∧
    storeH2.history = storeH1.history :=
  ⟨claim_C7.1 storeA 2 1 none storeH1 0 rfl,
   claim_C7.2.1 storeH1 0 2 storeH2 true rfl⟩

/-- Counterexample to C8: the storage-layer policies themselves permit
status writes outside the engine — seller 10 may update their own property
row from `available` to `sold`, and buyer 2 may update their own pending
request to `cancelled` directly. -/
theorem claim_C8_counterexample :
    propertyUpdatePolicy 10 ⟨1, 10, PropertyStatus.available⟩
      ⟨1, 10, PropertyStatus.sold⟩ = true ∧
    PropertyStatus.sold ≠ PropertyStatus.available ∧
    requestUpdateAllowed 2 ⟨0, 2, 1, 10, none, RequestStatus.pending⟩
      ⟨0, 2, 1, 10, none, RequestStatus.cancelled⟩ = true ∧
    RequestStatus.cancelled ≠ RequestStatus.pending :=
  ⟨rfl, by decide, rfl, by decide⟩

/-- Claim C8 (amended): direct INSERT and DELETE on requests are blocked,
but the UPDATE policies leave further status write paths outside the
engine: a property's seller may set their own property to any status, and
the buyer (resp. seller) of a pending request may set its status to
cancelled (resp. accepted/declined) directly; every such direct request
update starts from a pending row. -/
theorem claim_C8 :
    (∀ old : Property, ∀ st, propertyUpdatePolicy old.seller_id old
      { old with status := st } = true) ∧
    (∀ old : Request, old.status = RequestStatus.pending →
      requestUpdateAllowed old.buyer_id old
        { old with status := RequestStatus.cancelled } = true) ∧
    (∀ old : Request, old.status = RequestStatus.pending →
      requestUpdateAllowed old.seller_id old
        { old with status := RequestStatus.accepted } = true) ∧
    (∀ uid old new, requestUpdateAllowed uid old new = true →
      old.status = RequestStatus.pending) ∧
    (∀ uid r, requestInsertAllowed uid r = false ∧
      requestDeleteAllowed uid r = false) := by
  refine ⟨?_, ?_, ?_, ?_, fun uid r => ⟨rfl, rfl⟩⟩
  · intro old st
    simp [propertyUpdatePolicy]
  · intro old h
    simp [requestUpdateAllowed, buyerRequestUpdatePolicy, h]
  · intro old h
    simp [requestUpdateAllowed, buyerRequestUpdatePolicy,
      sellerRequestUpdatePolicy, h]
  · intro uid old new h
    unfold requestUpdateAllowed buyerRequestUpdatePolicy
      sellerRequestUpdatePolicy at h
    simp only [Bool.or_eq_true, Bool.and_eq_true, beq_iff_eq] at h
    rcases h with h | h
    · exact h.1.2
    · exact h.1.2

/-- Witness for C8 (amended) at concrete rows. -/
theorem claim_C8_witness :
    propertyUpdatePolicy 10 ⟨1, 10, PropertyStatus.available⟩
      ⟨1, 10, PropertyStatus.withdrawn⟩ = true ∧
    requestUpdateAllowed 2 ⟨0, 2, 1, 10, none, RequestStatus.pending⟩
      ⟨0, 2, 1, 10, none, RequestStatus.cancelled⟩ = true ∧
    requestUpdateAllowed 10 ⟨0, 2, 1, 10, none, RequestStatus.pending⟩
      ⟨0, 2, 1, 10, none, RequestStatus.accepted⟩ = true ∧
    (requestInsertAllowed 2 ⟨0, 2, 1, 10, none, RequestStatus.pending⟩ = false ∧
      requestDeleteAllowed 2 ⟨0, 2, 1, 10, none, RequestStatus.pending⟩ = false) :=
  ⟨claim_C8.1 ⟨1, 10, PropertyStatus.available⟩ PropertyStatus.withdrawn,
   claim_C8.2.1 ⟨0, 2, 1, 10, none, RequestStatus.pending⟩ rfl,
   claim_C8.2.2.1 ⟨0, 2, 1, 10, none, RequestStatus.pending⟩ rfl,
   claim_C8.2.2.2.2 2 ⟨0, 2, 1, 10, none, RequestStatus.pending⟩⟩

/-- Counterexample to C9: the façade collapses distinct engine error kinds
into an untyped generic Error — NotFound (P0002) and SelfRequestForbidden
(P0003) both surface as a plain Error from createRequest, and every
cancel_request failure surfaces as a plain Error. -/
theorem claim_C9_counterexample :
    mapCreateRequestError (errcodeOf EngineError.NotFound) false =
      ClientError.genericError ∧
    mapCreateRequestError (errcodeOf EngineError.SelfRequestForbidden) false =
      ClientError.genericError ∧
    mapCancelRequestError (errcodeOf EngineError.Forbidden) false =
      ClientError.genericError ∧
    mapCancelRequestError (errcodeOf EngineError.NotFound) false =
      ClientError.genericError :=
  ⟨rfl, rfl, rfl, rfl⟩

/-- Claim C9 (amended): createRequest maps only PropertyNotAvailable
(P0001) and DuplicatePendingRequest (23505) to distinct typed errors (plus
NetworkError for network-flagged messages); all its other engine failures,
and every cancelRequest failure, surface as an untyped generic Error; and
the façade performs no parameter validation — a non-empty message of any
length is forwarded to the engine unchanged. -/
theorem claim_C9 :
    (∀ st, mapCreateRequestError (errcodeOf (EngineError.PropertyNotAvailable st))
      false = ClientError.propertyNotAvailableError) ∧
    mapCreateRequestError (errcodeOf EngineError.DuplicatePendingRequest) false =
      ClientError.activePendingRequestError ∧
    mapCreateRequestError (errcodeOf EngineError.NotFound) false =
      ClientError.genericError ∧
    mapCreateRequestError (errcodeOf EngineError.SelfRequestForbidden) false =
      ClientError.genericError ∧
    (∀ c m, mapCancelRequestError c m = ClientError.genericError) ∧
    (∀ str : String, str ≠ "" → facadeMessageArg (some str) = some str) := by
  refine ⟨fun st => rfl, rfl, rfl, rfl, fun c m => rfl, ?_⟩
  intro str h
  show (if str = "" then none else some str) = some str
  rw [if_neg h]

/-- Witness for C9 (amended). -/
theorem claim_C9_witness :
    mapCreateRequestError (errcodeOf (EngineError.PropertyNotAvailable
      PropertyStatus.sold)) false = ClientError.propertyNotAvailableError ∧
    mapCancelRequestError SqlErrcode.P0004 true = ClientError.genericError ∧
    facadeMessageArg (some "hello") = some "hello" :=
  ⟨claim_C9.1 PropertyStatus.sold,
   claim_C9.2.2.2.2.1 SqlErrcode.P0004 true,
   claim_C9.2.2.2.2.2 "hello" (by decide)⟩

end RealEstate
